import Mathlib

/-!
Shallow embedding of the fleet-dashboard repository (GPS Dozor front end):
the fleet statistics composable (useFleet.js), the per-vehicle detail
composable (useVehicleDetail.js), the weather composable (useWeather.js),
the Leaflet map composable (useMap.js), the detail panel's eco-event row
(DetailPanel.vue) and the orchestration in App.vue, together with proofs
of the specification's claims about them.

JavaScript values that the code tests for truthiness or feeds to
`parseFloat` are modelled by an explicit `JSVal` type; numbers are modelled
as rationals (`ℚ`), `NaN` outcomes of `parseFloat` as `Option.none`.
-/

/-- A JavaScript value as it appears in the API payloads: a number, a
string, `undefined` or `null`. -/
inductive JSVal where
  | num (q : ℚ)
  | str (s : String)
  | undefined
  | null
deriving DecidableEq, Repr

/-- JavaScript truthiness test, negated: `undefined`, `null`, the number 0
and the empty string are falsy (models the guard `!x` in the source). -/
def jsFalsy : JSVal → Bool
  | .num q => q = 0
  | .str s => s.isEmpty
  | .undefined => true
  | .null => true

/-- Numeric value of a decimal digit character. -/
def digitVal (c : Char) : ℕ := c.toNat - 48

/-- Splits a character list into its longest prefix of decimal digits and
the remainder (models `parseFloat`'s digit scanning). -/
def takeDigits : List Char → List ℕ × List Char
  | [] => ([], [])
  | c :: cs =>
    if c.isDigit then
      let (ds, rest) := takeDigits cs
      (digitVal c :: ds, rest)
    else ([], c :: cs)

/-- Value of a digit list read as a base-10 integer. -/
def digitsToNat (ds : List ℕ) : ℕ := ds.foldl (fun a d => a * 10 + d) 0

/-- Value of a digit list read as a base-10 fraction (digits after the
decimal point). -/
def fracValue (ds : List ℕ) : ℚ := (digitsToNat ds : ℚ) / (10 : ℚ) ^ ds.length

/-- `parseFloat` on a character list: optional sign, integer digits,
optional decimal point and fraction digits; trailing characters are
ignored as in JavaScript; `none` models a `NaN` result (no digits found).
Exponent notation and leading whitespace do not occur in the repository's
inputs and are not modelled. -/
def parseFloatChars (cs : List Char) : Option ℚ :=
  let signRest : Bool × List Char :=
    match cs with
    | '-' :: rest => (true, rest)
    | '+' :: rest => (false, rest)
    | _ => (false, cs)
  let intPart := takeDigits signRest.2
  let fracPart : List ℕ :=
    match intPart.2 with
    | '.' :: rest => (takeDigits rest).1
    | _ => []
  if intPart.1.isEmpty && fracPart.isEmpty then none
  else
    let v : ℚ := (digitsToNat intPart.1 : ℚ) + fracValue fracPart
    some (if signRest.1 then -v else v)

/-- JavaScript `parseFloat` on a `JSVal`; `none` models `NaN`
(`parseFloat(undefined)`, `parseFloat(null)` and `parseFloat("")` are all
`NaN`). -/
def parseFloatJS : JSVal → Option ℚ
  | .num q => some q
  | .str s => parseFloatChars s.toList
  | .undefined => none
  | .null => none

/-- `LastPosition` object of a vehicle (useMap.js reads `Latitude` and
`Longitude` as raw JS values before parsing). -/
structure LastPos where
  Latitude : JSVal
  Longitude : JSVal
deriving DecidableEq, Repr

/-- A vehicle record as returned by `getVehicles` and consumed by
useFleet.js and useMap.js. -/
structure Vehicle where
  Code : String
  Name : String
  SPZ : String
  Speed : ℚ
  LastPosition : Option LastPos
deriving DecidableEq, Repr

/-- `v.LastPosition?.Latitude`: the latitude value behind the optional
chain, `undefined` when `LastPosition` is absent. -/
def latVal (v : Vehicle) : JSVal :=
  match v.LastPosition with
  | some lp => lp.Latitude
  | none => .undefined

/-- `v.LastPosition?.Longitude`: the longitude value behind the optional
chain, `undefined` when `LastPosition` is absent. -/
def lngVal (v : Vehicle) : JSVal :=
  match v.LastPosition with
  | some lp => lp.Longitude
  | none => .undefined

/-! ## useFleet.js: derived statistics and refresh -/

/-- useFleet.js `movingCount`: number of vehicles with `Speed > 0`. -/
def movingCount (vehicles : List Vehicle) : ℕ :=
  (vehicles.filter (fun v => v.Speed > 0)).length

/-- useFleet.js `idleCount`: number of vehicles with `Speed === 0`. -/
def idleCount (vehicles : List Vehicle) : ℕ :=
  (vehicles.filter (fun v => v.Speed = 0)).length

/-- JavaScript `Math.round`: round half toward positive infinity. -/
def jsRound (q : ℚ) : ℤ := ⌊q + 1 / 2⌋

/-- useFleet.js `avgSpeed`: `Math.round` of the mean speed of the moving
vehicles (`reduce` over the filtered list), 0 when none is moving; the
source's local `moving` binding is inlined. -/
def avgSpeed (vehicles : List Vehicle) : ℤ :=
  if (vehicles.filter (fun v => v.Speed > 0)).length = 0 then 0
  else
    jsRound
      (((vehicles.filter (fun v => v.Speed > 0)).foldl (fun sum v => sum + v.Speed) 0) /
        ((vehicles.filter (fun v => v.Speed > 0)).length : ℚ))

/-- Fleet-level state owned by useFleet.js. -/
structure FleetState where
  groupCode : String
  vehicles : List Vehicle
  loading : Bool
  lastRefresh : Option String
deriving DecidableEq, Repr

/-- `refresh()` prologue: `loading.value = true` before the request is
issued. -/
def refreshStart (st : FleetState) : FleetState :=
  { st with loading := true }

/-- `refresh()` continuation after `getVehicles` settles: on success the
vehicle list is replaced and the timestamp stamped, then the `finally`
block clears `loading`; on failure only the `finally` block runs and the
exception propagates to the caller. -/
def refreshFinish (st : FleetState) (result : Except String (List Vehicle))
    (now : String) : FleetState × Except String Unit :=
  match result with
  | .ok vs => ({ st with vehicles := vs, lastRefresh := some now, loading := false }, .ok ())
  | .error e => ({ st with loading := false }, .error e)

/-- The whole `refresh()` call: prologue, then the settled continuation. -/
def refresh (st : FleetState) (result : Except String (List Vehicle))
    (now : String) : FleetState × Except String Unit :=
  refreshFinish (refreshStart st) result now

/-! ## useMap.js: the map rendering engine -/

/-- A live-position marker in the markers layer (position and the
`vehicleIcon` colour). -/
structure Marker where
  lat : ℚ
  lng : ℚ
  color : String
deriving DecidableEq, Repr

/-- An item of the history layer: a speed-coloured polyline segment
between two (possibly NaN) coordinate pairs, or a start/end pin. -/
inductive HistItem where
  | seg (a b : Option ℚ × Option ℚ) (color : String)
  | pin (p : Option ℚ × Option ℚ) (color : String)
deriving DecidableEq, Repr

instance : Inhabited HistItem := ⟨.pin (none, none) ""⟩

/-- The map viewport, recorded as the last viewport operation applied
(`setView` keeps the raw, possibly-NaN longitude it was handed). -/
inductive Viewport where
  | initial
  | setView (lat : ℚ) (lng : Option ℚ) (zoom : ℕ)
  | fitBounds (pts : List (Option ℚ × Option ℚ)) (pad : ℕ)
deriving DecidableEq, Repr

/-- State owned by useMap.js: the two layer groups and the viewport. -/
structure MapState where
  markersLayer : List Marker
  historyLayer : List HistItem
  viewport : Viewport
deriving DecidableEq, Repr

/-- useMap.js `vehicleIcon` colour: green for moving, grey for idle. -/
def vehicleColor (speed : ℚ) : String :=
  if speed > 0 then "#3dd68c" else "#4a5568"

/-- The marker `updateMarkers` builds for one vehicle: skipped when
`LastPosition?.Latitude` is falsy or either coordinate parses to NaN. -/
def markerOf (v : Vehicle) : Option Marker :=
  if jsFalsy (latVal v) then none
  else
    match parseFloatJS (latVal v), parseFloatJS (lngVal v) with
    | some lat, some lng => some ⟨lat, lng, vehicleColor v.Speed⟩
    | _, _ => none

/-- useMap.js `updateMarkers`: clears the markers layer and repopulates it
with one marker per vehicle that passes the coordinate checks. -/
def updateMarkers (vehicles : List Vehicle) (st : MapState) : MapState :=
  { st with markersLayer := vehicles.filterMap markerOf }

/-- A GPS history position sample (`{Lat, Lng, Speed}`) as consumed by
`drawHistory`. -/
structure Sample where
  Lat : JSVal
  Lng : JSVal
  Speed : ℚ
deriving DecidableEq, Repr

instance : Inhabited Sample := ⟨⟨.undefined, .undefined, 0⟩⟩

/-- Parsed coordinate pair of a sample (`[parseFloat(p.Lat),
parseFloat(p.Lng)]`). -/
def coordOf (p : Sample) : Option ℚ × Option ℚ :=
  (parseFloatJS p.Lat, parseFloatJS p.Lng)

/-- Segment colour in `drawHistory`:
`speed > 90 ? red : speed > 60 ? amber : green`. -/
def segColor (speed : ℚ) : String :=
  if speed > 90 then "#ff4757" else if speed > 60 then "#f5a623" else "#3dd68c"

/-- The polyline segments of `drawHistory`'s loop: one segment between
each pair of consecutive samples, coloured by the first sample's speed. -/
def segsOf : List Sample → List HistItem
  | [] => []
  | [_] => []
  | p :: q :: rest => .seg (coordOf p) (coordOf q) (segColor p.Speed) :: segsOf (q :: rest)

/-- useMap.js `drawHistory`: clears both layers, then (when samples are
present) adds the speed-coloured segments, a green start pin and a red end
pin, and fits the viewport to all points with padding 40. -/
def drawHistory (positions : Option (List Sample)) (st : MapState) : MapState :=
  let cleared := { st with historyLayer := [], markersLayer := [] }
  match positions with
  | none => cleared
  | some ps =>
    match ps with
    | [] => cleared
    | p :: rest =>
      { cleared with
        historyLayer :=
          segsOf (p :: rest) ++
            [.pin (coordOf p) "#3dd68c",
             .pin (coordOf ((p :: rest).getLast (by simp))) "#ff4757"],
        viewport := .fitBounds ((p :: rest).map coordOf) 40 }

/-- useMap.js `clearHistory`: removes everything from the history layer. -/
def clearHistory (st : MapState) : MapState :=
  { st with historyLayer := [] }

/-- useMap.js `fitAll`: keeps vehicles with a truthy latitude, parses both
coordinates, drops points whose latitude is NaN (only the latitude is
checked), and fits the viewport when any point remains. -/
def fitAll (vehicles : List Vehicle) (st : MapState) : MapState :=
  let points :=
    ((vehicles.filter (fun v => !jsFalsy (latVal v))).map
        (fun v => (parseFloatJS (latVal v), parseFloatJS (lngVal v)))).filter
      (fun p => p.1.isSome)
  if points.isEmpty then st
  else { st with viewport := .fitBounds points 30 }

/-- useMap.js `panTo`: returns unchanged when the latitude is falsy or
parses to NaN; otherwise sets the view to the parsed latitude and the raw
parse of the longitude (the longitude is not checked). -/
def panTo (v : Vehicle) (st : MapState) : MapState :=
  if jsFalsy (latVal v) then st
  else
    match parseFloatJS (latVal v) with
    | none => st
    | some lat => { st with viewport := .setView lat (parseFloatJS (lngVal v)) 13 }

/-! ## DetailPanel.vue: eco-event rendering and App.vue chart aggregation -/

/-- An eco-driving event record (`EventType`, `EventSeverity`, timestamp,
`Speed`, where `Speed` uses the minimum 32-bit signed integer as the
"unavailable" sentinel). -/
structure EcoEvent where
  EventType : ℤ
  EventSeverity : ℤ
  Timestamp : String
  Speed : ℤ
deriving DecidableEq, Repr

/-- DetailPanel.vue's eco-event speed text:
`ev.Speed > -2147483648 ? ev.Speed + ' km/h' : 'N/A'`. -/
def ecoSpeedText (ev : EcoEvent) : String :=
  if ev.Speed > -2147483648 then toString ev.Speed ++ " km/h" else "N/A"

/-- App.vue `drawEcoChart`'s label lookup: `ECO_NAMES[ev.EventType] ||
'Unknown'`. -/
def ecoLabel (t : ℤ) : String :=
  if t = 0 then "Unknown"
  else if t = 1 then "Cornering L"
  else if t = 2 then "Cornering R"
  else if t = 3 then "Cornering"
  else if t = 4 then "Hard Accel"
  else if t = 5 then "Hard Brake"
  else if t = 6 then "Bump"
  else if t = 7 then "Long Clutch"
  else if t = 8 then "Neutral Drive"
  else if t = 9 then "Freewheeling"
  else "Unknown"

/-- App.vue `drawEcoChart`'s aggregation: the doughnut's count for a given
label is the number of events whose `EventType` maps to that label. -/
def ecoChartCount (events : List EcoEvent) (label : String) : ℕ :=
  (events.filter (fun ev => ecoLabel ev.EventType = label)).length

/-! ## useWeather.js and App.vue: orchestrated application state -/

/-- The normalized weather snapshot stored by useWeather.js. -/
structure Weather where
  icon : String
  label : String
  temp : ℚ
  wind : ℚ
deriving DecidableEq, Repr

/-- A trip record (the fields the detail panel and speed chart read). -/
structure Trip where
  StartTime : String
  TotalDistance : ℚ
  AverageSpeed : ℚ
  MaxSpeed : ℚ
deriving DecidableEq, Repr

/-- Detail-panel tab. -/
inductive Tab where
  | trips
  | eco
deriving DecidableEq, Repr

/-- Map display mode. -/
inductive MapMode where
  | live
  | history
deriving DecidableEq, Repr

/-- The shared application state wired together in App.vue: the selection,
UI mode, the detail composable's state, the enrichment state and the map
engine's state. -/
structure AppState where
  selectedVehicle : Option Vehicle
  mapMode : MapMode
  activeTab : Tab
  currentAddress : Option String
  trips : List Trip
  ecoEvents : List EcoEvent
  loadingTrips : Bool
  loadingEco : Bool
  weather : Option Weather
  loadingWeather : Bool
  mapState : MapState
deriving DecidableEq, Repr

/-- App.vue `onSelectVehicle` up to the suspension inside
`fetchTrips(v.Code)`: stores the selection, forces live mode, clears the
history layer, pans to the vehicle, clears the address, resets the tab and
the trip/eco lists, then `fetchTrips` sets its loading flag and resets
`trips` again before awaiting `getTrips`. -/
def selectStart (v : Vehicle) (st : AppState) : AppState :=
  let st := { st with selectedVehicle := some v, mapMode := .live }
  let st := { st with mapState := clearHistory st.mapState }
  let st := { st with mapState := panTo v st.mapState }
  let st := { st with currentAddress := none, activeTab := .trips,
                      trips := [], ecoEvents := [] }
  { st with loadingTrips := true, trips := [] }

/-- useVehicleDetail.js `fetchTrips` continuation once `getTrips(code, …)`
resolves: `trips.value = result || []` and the `finally` block clears the
loading flag. The vehicle code the request was issued for is in scope but
the continuation never compares it with the current selection. -/
def tripsResolve (code : String) (result : Option (List Trip)) (st : AppState) : AppState :=
  { st with trips := result.getD [], loadingTrips := false }

/-- App.vue `onSelectVehicle` epilogue after the trips fetch and
`nextTick`: parses the vehicle's coordinates and, only when both parse,
dispatches the enrichment fetches — `fetchWeather`'s prologue sets its
loading flag and clears the previous weather snapshot. When either
coordinate is NaN nothing runs and the weather state is left as it was. -/
def enrichDispatch (v : Vehicle) (st : AppState) : AppState :=
  match parseFloatJS (latVal v), parseFloatJS (lngVal v) with
  | some _, some _ => { st with loadingWeather := true, weather := none }
  | _, _ => st

/-- The full synchronous-per-event trace of selecting a vehicle whose trip
fetch resolves with `result` before anything else happens: the selection
steps, the resolved trips write, then the enrichment dispatch. -/
def selectAndResolve (v : Vehicle) (result : Option (List Trip)) (st : AppState) : AppState :=
  enrichDispatch v (tripsResolve v.Code result (selectStart v st))

/-! ## Theorems -/

/-- Folding `fun sum v => sum + v.Speed` from `a` adds the list's total
speed (the `reduce` in `avgSpeed`). -/
theorem foldl_speed_eq_sum (l : List Vehicle) (a : ℚ) :
    l.foldl (fun sum v => sum + v.Speed) a = a + (l.map Vehicle.Speed).sum := by
  induction l generalizing a with
  | nil => simp
  | cons v t ih => simp [ih, add_assoc]

/-- Claim C4: for every vehicle collection whose speeds are non-negative
(the data model's `Speed ≥ 0`), `movingCount + idleCount` equals the
number of vehicles; both counts are natural numbers and hence
non-negative. -/
theorem moving_plus_idle_eq_length (vs : List Vehicle)
    (h : ∀ v ∈ vs, 0 ≤ v.Speed) :
    movingCount vs + idleCount vs = vs.length := by
  induction vs with
  | nil => rfl
  | cons v t ih =>
    have hv : 0 ≤ v.Speed := h v (List.mem_cons_self v t)
    have ih' := ih (fun w hw => h w (List.mem_cons_of_mem v hw))
    simp only [movingCount, idleCount] at ih' ⊢
    rcases lt_or_eq_of_le hv with hlt | heq
    · have hm : decide (v.Speed > 0) = true := decide_eq_true hlt
      have hi : decide (v.Speed = 0) = false := decide_eq_false hlt.ne'
      simp [List.filter_cons, hm, hi] at ih' ⊢
      omega
    · have hm : decide (v.Speed > 0) = false := by
        rw [← heq]; exact decide_eq_false (lt_irrefl 0)
      have hi : decide (v.Speed = 0) = true := decide_eq_true heq.symm
      simp [List.filter_cons, hm, hi] at ih' ⊢
      omega

/-- Witness for C4 at a concrete three-vehicle fleet. -/
theorem moving_plus_idle_eq_length_witness :
    movingCount
        [⟨"V1", "V1", "", 0, none⟩, ⟨"V2", "V2", "", 45, none⟩,
         ⟨"V3", "V3", "", 120, none⟩] +
      idleCount
        [⟨"V1", "V1", "", 0, none⟩, ⟨"V2", "V2", "", 45, none⟩,
         ⟨"V3", "V3", "", 120, none⟩] = 3 :=
  moving_plus_idle_eq_length
    [⟨"V1", "V1", "", 0, none⟩, ⟨"V2", "V2", "", 45, none⟩,
     ⟨"V3", "V3", "", 120, none⟩]
    (by decide)

/-- Claim C5: `avgSpeed` is 0 when no vehicle is moving, otherwise the
round-half-up of the arithmetic mean of the moving vehicles' speeds; on
the scenario fleet with speeds 0, 45, 120 it yields `movingCount = 2`,
`idleCount = 1`, `avgSpeed = 83`. -/
theorem avgSpeed_zero_or_round_mean :
    (∀ vs : List Vehicle, vs.filter (fun v => v.Speed > 0) = [] → avgSpeed vs = 0)
    ∧ (∀ vs : List Vehicle, vs.filter (fun v => v.Speed > 0) ≠ [] →
        avgSpeed vs =
          round (((vs.filter (fun v => v.Speed > 0)).map Vehicle.Speed).sum /
            ((vs.filter (fun v => v.Speed > 0)).length : ℚ)))
    ∧ (movingCount
          [⟨"V1", "V1", "", 0, none⟩, ⟨"V2", "V2", "", 45, none⟩,
           ⟨"V3", "V3", "", 120, none⟩] = 2
        ∧ idleCount
            [⟨"V1", "V1", "", 0, none⟩, ⟨"V2", "V2", "", 45, none⟩,
             ⟨"V3", "V3", "", 120, none⟩] = 1
        ∧ avgSpeed
            [⟨"V1", "V1", "", 0, none⟩, ⟨"V2", "V2", "", 45, none⟩,
             ⟨"V3", "V3", "", 120, none⟩] = 83) := by
  refine ⟨?_, ?_, ?_, ?_, ?_⟩
  · intro vs hmt
    simp [avgSpeed, hmt]
  · intro vs hne
    have hlen : ¬(vs.filter (fun v => v.Speed > 0)).length = 0 := by
      simpa [List.length_eq_zero] using hne
    unfold avgSpeed
    rw [if_neg hlen]
    unfold jsRound
    rw [foldl_speed_eq_sum, zero_add, round_eq]
  · decide
  · decide
  · have hfil :
        List.filter (fun v => decide (v.Speed > 0))
            [(⟨"V1", "V1", "", 0, none⟩ : Vehicle), ⟨"V2", "V2", "", 45, none⟩,
             ⟨"V3", "V3", "", 120, none⟩]
          = [⟨"V2", "V2", "", 45, none⟩, ⟨"V3", "V3", "", 120, none⟩] := by decide
    unfold avgSpeed
    rw [hfil]
    norm_num [jsRound]

/-- Witness for C5: the empty fleet gives average 0, and a one-vehicle
fleet gives the rounded mean of its single speed. -/
theorem avgSpeed_zero_or_round_mean_witness :
    avgSpeed [] = 0
    ∧ avgSpeed [⟨"V2", "V2", "", 45, none⟩] =
        round (((([⟨"V2", "V2", "", 45, none⟩] : List Vehicle).filter
            (fun v => v.Speed > 0)).map Vehicle.Speed).sum /
          ((([⟨"V2", "V2", "", 45, none⟩] : List Vehicle).filter
            (fun v => v.Speed > 0)).length : ℚ)) :=
  ⟨avgSpeed_zero_or_round_mean.1 [] rfl,
   avgSpeed_zero_or_round_mean.2.1 [⟨"V2", "V2", "", 45, none⟩] (by decide)⟩

/-- Claim C6: a failing `refresh()` keeps the previous vehicle collection
and timestamp, clears `loading` and propagates the error to the caller; a
successful `refresh()` replaces the collection wholesale, stamps the
timestamp and clears `loading`. -/
theorem refresh_failure_retains_success_replaces :
    ∀ (st : FleetState) (e now : String) (vs : List Vehicle),
      ((refresh st (.error e) now).1.vehicles = st.vehicles
        ∧ (refresh st (.error e) now).1.lastRefresh = st.lastRefresh
        ∧ (refresh st (.error e) now).1.loading = false
        ∧ (refresh st (.error e) now).2 = .error e)
      ∧ ((refresh st (.ok vs) now).1.vehicles = vs
        ∧ (refresh st (.ok vs) now).1.lastRefresh = some now
        ∧ (refresh st (.ok vs) now).1.loading = false
        ∧ (refresh st (.ok vs) now).2 = .ok ()) :=
  fun _ _ _ _ => ⟨⟨rfl, rfl, rfl, rfl⟩, ⟨rfl, rfl, rfl, rfl⟩⟩

/-- The segment list of `drawHistory` has one segment per consecutive pair
of samples. -/
theorem segsOf_length (ps : List Sample) : (segsOf ps).length = ps.length - 1 := by
  induction ps with
  | nil => rfl
  | cons p t ih =>
    cases t with
    | nil => rfl
    | cons q rest =>
      simp [segsOf] at ih ⊢
      omega

/-- Segment `i` of `drawHistory` connects samples `i` and `i + 1` and is
coloured by sample `i`'s speed. -/
theorem segsOf_getD (ps : List Sample) :
    ∀ i, i + 1 < ps.length →
      (segsOf ps).getD i default =
        .seg (coordOf (ps.getD i default)) (coordOf (ps.getD (i + 1) default))
          (segColor (ps.getD i default).Speed) := by
  induction ps with
  | nil => intro i h; simp at h
  | cons p t ih =>
    intro i h
    cases t with
    | nil => simp at h
    | cons q rest =>
      cases i with
      | zero => rfl
      | succ j =>
        have hj : j + 1 < (q :: rest).length := by
          simpa using Nat.lt_of_succ_lt_succ h
        simpa [segsOf] using ih j hj

/-- The cascading conditional of `drawHistory`'s segment colour equals the
three-tier threshold table of the specification: ≤ 60 low, ≤ 90 mid,
> 90 high. -/
theorem segColor_tiers (s : ℚ) :
    segColor s =
      (if s ≤ 60 then "#3dd68c" else if s ≤ 90 then "#f5a623" else "#ff4757") := by
  unfold segColor
  by_cases h60 : s ≤ 60
  · have h90 : ¬s > 90 := by linarith
    have h60' : ¬s > 60 := not_lt.mpr h60
    simp [h90, h60', h60]
  · by_cases h90 : s ≤ 90
    · simp [not_lt.mpr h90, not_le.mp h60, h60, h90]
    · simp [not_le.mp h90, h60, h90]

/-- Claim C7: in history mode every segment between consecutive position
samples is independently coloured by the 3-tier speed thresholds (≤ 60
low-severity green, ≤ 90 mid-severity amber, > 90 high-severity red), and
distinct start and end markers are added (a green start pin and a red end
pin). -/
theorem drawHistory_segment_tiers (ps : List Sample) (st : MapState) (hne : ps ≠ []) :
    ((drawHistory (some ps) st).historyLayer =
        segsOf ps ++
          [.pin (coordOf (ps.head hne)) "#3dd68c",
           .pin (coordOf (ps.getLast hne)) "#ff4757"])
    ∧ (segsOf ps).length = ps.length - 1
    ∧ (∀ i, i + 1 < ps.length →
        (segsOf ps).getD i default =
          .seg (coordOf (ps.getD i default)) (coordOf (ps.getD (i + 1) default))
            (if (ps.getD i default).Speed ≤ 60 then "#3dd68c"
             else if (ps.getD i default).Speed ≤ 90 then "#f5a623"
             else "#ff4757"))
    ∧ ("#3dd68c" : String) ≠ "#ff4757" := by
  refine ⟨?_, segsOf_length ps, ?_, by decide⟩
  · cases ps with
    | nil => exact absurd rfl hne
    | cons p rest => rfl
  · intro i h
    rw [segsOf_getD ps i h, segColor_tiers]

/-- Witness for C7 at a concrete two-sample track (speeds 45 and 100). -/
theorem drawHistory_segment_tiers_witness :
    (drawHistory (some [⟨.num 50, .num 14, 45⟩, ⟨.num 51, .num 15, 100⟩])
          ⟨[], [], .initial⟩).historyLayer =
      segsOf [⟨.num 50, .num 14, 45⟩, ⟨.num 51, .num 15, 100⟩] ++
        [.pin (coordOf ⟨.num 50, .num 14, 45⟩) "#3dd68c",
         .pin (coordOf ⟨.num 51, .num 15, 100⟩) "#ff4757"] :=
  (drawHistory_segment_tiers [⟨.num 50, .num 14, 45⟩, ⟨.num 51, .num 15, 100⟩]
      ⟨[], [], .initial⟩ (by decide)).1

/-- Claim C10: `updateMarkers` omits every vehicle whose
`LastPosition.Latitude` is falsy — a latitude of exactly 0, an empty
string, or a missing value — even when the longitude is valid: such a
vehicle contributes no marker. -/
theorem updateMarkers_omits_falsy_latitude (v : Vehicle)
    (h : jsFalsy (latVal v) = true) :
    markerOf v = none
    ∧ ∀ (vs : List Vehicle) (st : MapState),
        (updateMarkers (vs ++ [v]) st).markersLayer = (updateMarkers vs st).markersLayer := by
  constructor
  · simp [markerOf, h]
  · intro vs st
    simp [updateMarkers, List.filterMap_append, markerOf, h]

/-- Witness for C10: a vehicle whose latitude is the number 0 and whose
longitude is the valid coordinate 14 is never rendered as a marker. -/
theorem updateMarkers_omits_falsy_latitude_witness :
    markerOf ⟨"V", "N", "P", 50, some ⟨.num 0, .num 14⟩⟩ = none
    ∧ (updateMarkers [⟨"V", "N", "P", 50, some ⟨.num 0, .num 14⟩⟩]
          ⟨[], [], .initial⟩).markersLayer = [] := by
  have h := updateMarkers_omits_falsy_latitude
    ⟨"V", "N", "P", 50, some ⟨.num 0, .num 14⟩⟩ (by decide)
  refine ⟨h.1, ?_⟩
  have h2 := h.2 [] ⟨[], [], .initial⟩
  simpa using h2

/-- Claim C8: an eco-event whose `Speed` is the minimum representable
32-bit signed integer (-2147483648) renders as "N/A"; any other in-range
speed renders as that number; and the eco chart's per-type aggregation
never reads `Speed`, so the sentinel is excluded from every numeric
aggregation. -/
theorem eco_sentinel_speed_na :
    (∀ ev : EcoEvent, ev.Speed = -2147483648 → ecoSpeedText ev = "N/A")
    ∧ (∀ ev : EcoEvent, -2147483648 ≤ ev.Speed → ev.Speed ≠ -2147483648 →
        ecoSpeedText ev = toString ev.Speed ++ " km/h")
    ∧ (∀ (evs : List EcoEvent) (f : EcoEvent → ℤ) (label : String),
        ecoChartCount (evs.map (fun e => { e with Speed := f e })) label =
          ecoChartCount evs label) := by
  refine ⟨?_, ?_, ?_⟩
  · intro ev hs
    simp [ecoSpeedText, hs]
  · intro ev hlo hne
    have hgt : ev.Speed > -2147483648 := lt_of_le_of_ne hlo (Ne.symm hne)
    simp [ecoSpeedText, hgt]
  · intro evs f label
    induction evs with
    | nil => rfl
    | cons e t ih =>
      simp only [List.map_cons, ecoChartCount, List.filter_cons] at ih ⊢
      by_cases h : ecoLabel e.EventType = label <;> simp [h, ih]

/-- Witness for C8: a hard-braking event with sentinel speed renders
"N/A"; the same event type with speed 45 renders "45 km/h". -/
theorem eco_sentinel_speed_na_witness :
    ecoSpeedText ⟨5, 2, "2024-01-01T10:00", -2147483648⟩ = "N/A"
    ∧ ecoSpeedText ⟨5, 2, "2024-01-01T10:00", 45⟩ = "45 km/h" := by
  constructor
  · exact eco_sentinel_speed_na.1 ⟨5, 2, "2024-01-01T10:00", -2147483648⟩ rfl
  · have h := eco_sentinel_speed_na.2.1 ⟨5, 2, "2024-01-01T10:00", 45⟩
      (by decide) (by decide)
    simpa using h

/-- Claim C1 failing run, evaluated on the embedded code: the user selects
vehicle A then vehicle B; B's trip fetch resolves first, then A's. The
`fetchTrips` continuation writes its result without comparing the request's
vehicle with the current selection, so the final trip state is A's trips
while B is selected — the stale response is displayed, not discarded. -/
theorem stale_trip_response_overwrites_selection :
    (tripsResolve "A" (some [⟨"2024-01-01T08:00", 10, 40, 80⟩])
        (tripsResolve "B" (some [⟨"2024-01-02T09:00", 5, 30, 60⟩])
          (selectStart ⟨"B", "Vehicle B", "", 0, none⟩
            (selectStart ⟨"A", "Vehicle A", "", 0, none⟩
              ⟨none, .live, .trips, none, [], [], false, false, none, false,
                ⟨[], [], .initial⟩⟩)))).selectedVehicle =
      some ⟨"B", "Vehicle B", "", 0, none⟩
    ∧ (tripsResolve "A" (some [⟨"2024-01-01T08:00", 10, 40, 80⟩])
        (tripsResolve "B" (some [⟨"2024-01-02T09:00", 5, 30, 60⟩])
          (selectStart ⟨"B", "Vehicle B", "", 0, none⟩
            (selectStart ⟨"A", "Vehicle A", "", 0, none⟩
              ⟨none, .live, .trips, none, [], [], false, false, none, false,
                ⟨[], [], .initial⟩⟩)))).trips =
      [⟨"2024-01-01T08:00", 10, 40, 80⟩]
    ∧ ([⟨"2024-01-01T08:00", 10, 40, 80⟩] : List Trip) ≠
        [⟨"2024-01-02T09:00", 5, 30, 60⟩] := by
  refine ⟨rfl, rfl, by decide⟩

/-- Claim C2 failing run, evaluated on the embedded code: with a weather
snapshot from the previous vehicle in state, selecting a vehicle that has
no `LastPosition` runs the whole selection sequence (including the trips
fetch and enrichment dispatch) without ever clearing the weather state:
`fetchWeather` — the only place that clears it — is skipped because the
coordinates do not parse, so the stale snapshot remains displayed. -/
theorem stale_weather_retained_without_coordinates :
    (selectAndResolve ⟨"B", "Vehicle B", "", 0, none⟩ (some [])
        ⟨none, .live, .trips, none, [], [], false, false,
          some ⟨"sun", "Clear sky", 20, 10⟩, false,
          ⟨[], [], .initial⟩⟩).weather =
      some ⟨"sun", "Clear sky", 20, 10⟩
    ∧ (selectAndResolve ⟨"B", "Vehicle B", "", 0, none⟩ (some [])
        ⟨none, .live, .trips, none, [], [], false, false,
          some ⟨"sun", "Clear sky", 20, 10⟩, false,
          ⟨[], [], .initial⟩⟩).selectedVehicle =
      some ⟨"B", "Vehicle B", "", 0, none⟩ :=
  ⟨rfl, rfl⟩

/-- Claim C3 counterexample: with one vehicle marker on the map,
`drawHistory` on a non-empty sample list followed by `clearHistory` leaves
the route layer empty but changes the marker layer's vehicle count from 1
to 0, because `drawHistory` clears the marker layer as well. -/
theorem drawHistory_roundtrip_marker_count_counterexample :
    (clearHistory (drawHistory (some [⟨.num 50, .num 14, 45⟩])
        ⟨[⟨50, 14, "#3dd68c"⟩], [], .initial⟩)).historyLayer = []
    ∧ (clearHistory (drawHistory (some [⟨.num 50, .num 14, 45⟩])
        ⟨[⟨50, 14, "#3dd68c"⟩], [], .initial⟩)).markersLayer.length ≠
      ([⟨50, 14, "#3dd68c"⟩] : List Marker).length := by
  refine ⟨rfl, by decide⟩

/-- Claim C3 amended: `drawHistory(positions)` followed by
`clearHistory()` leaves the route layer empty and leaves the marker layer
empty as well — `drawHistory` deliberately clears the live markers
(history mode hides them), so the marker count afterwards is 0 rather
than the prior count. -/
theorem drawHistory_clearHistory_roundtrip :
    ∀ (positions : Option (List Sample)) (st : MapState),
      (clearHistory (drawHistory positions st)).historyLayer = []
      ∧ (clearHistory (drawHistory positions st)).markersLayer = [] := by
  intro positions st
  cases positions with
  | none => exact ⟨rfl, rfl⟩
  | some ps =>
    cases ps with
    | nil => exact ⟨rfl, rfl⟩
    | cons p rest => exact ⟨rfl, rfl⟩

/-- Claim C9 failing run, evaluated on the embedded code: a vehicle whose
latitude is the valid number 50 but whose longitude is the unparsable
string "abc". `panTo` checks only the latitude and moves the viewport,
handing Leaflet a NaN longitude, and `fitAll` keeps the vehicle's point
with its NaN longitude in the bounds it fits — neither operation is the
claimed no-op, and `fitAll` does not require both coordinates to parse. -/
theorem panTo_fitAll_unchecked_longitude :
    (panTo ⟨"V", "Bad", "", 0, some ⟨.num 50, .str "abc"⟩⟩
        ⟨[], [], .initial⟩).viewport = .setView 50 none 13
    ∧ (fitAll [⟨"V", "Bad", "", 0, some ⟨.num 50, .str "abc"⟩⟩]
        ⟨[], [], .initial⟩).viewport = .fitBounds [(some 50, none)] 30
    ∧ (Viewport.initial ≠ .setView 50 none 13
        ∧ Viewport.initial ≠ .fitBounds [(some 50, none)] 30) := by
  refine ⟨rfl, rfl, by decide, by decide⟩
